import Mathlib

/-!
Verification of the rate-limited external-call scheduler and the job-polling
state machine of the britannia-Campaign-engine-backend repository.

The development shallowly embeds two source files:

* `src/services/gemini-genai.service.ts` — `GeminiGenImageService`, in
  particular `pollTaskCompletion` (the fixed-schedule poller) and the
  top-level `generateBrandingImage` (which catches every internal error and
  returns a `success:false` response value).
* the rate-limited wrapper `RateLimitedImageService` (unnamed source file
  `part_000`) — sliding-window admission state, FIFO queue, fast path,
  drain loop, rate-limit error classification and retry handling.

Times are milliseconds as `Nat` (clocks are monotone, so JS `now - t`
matches `Nat` subtraction).  The single-threaded cooperative async model is
embedded as an explicit event machine: each synchronous segment of the
TypeScript (code between two `await`s) is one atomic transition, and an
external command list chooses the interleaving of arrivals, timer firings
and downstream-promise completions, exactly the choices the JS event loop
makes.
-/

/-! ### Poller: `GeminiGenImageService.pollTaskCompletion`

The provider's status payload (`response.data`).  `status` is an `Int`
because the code compares it against the literals 0,1,2,3,4 and treats any
other value as "unknown". -/

structure TaskStatus where
  status : Int
  generated_image : List String  -- the `image_url` of each generated image
  error_message : Option String
deriving Repr, DecidableEq

/-- The status-query collaborator: attempt number (1-based) to either the
parsed response body or a thrown error (network failure etc.), i.e. the
behaviour of the `axios.get` call inside the polling loop. -/
abbrev PollOracle := Nat → Except String TaskStatus

/-- The fixed 4-attempt schedule of `pollTaskCompletion`:
`(attempt, delay-before-attempt)` pairs, delays in ms. -/
def pollingSchedule : List (Nat × Nat) :=
  [(1, 0), (2, 38000), (3, 25000), (4, 30000)]

/-- `Math.floor(totalTime/1000)` rendered as in the template strings. -/
def secondsStr (t : Nat) : String := toString (t / 1000)

/-- `Task failed with status: ${status} - ${task.error_message || 'Unknown error'}`
(JS `||` treats the empty string as absent). -/
def taskFailedMsg (task : TaskStatus) : String :=
  "Task failed with status: " ++ toString task.status ++ " - " ++
    (match task.error_message with
     | some m => if m = "" then "Unknown error" else m
     | none => "Unknown error")

/-- `Task still ${statusText} after ${..}s - maximum wait time exceeded`. -/
def stillPendingMsg (status : Int) (t : Nat) : String :=
  "Task still " ++ (if status = 0 then "PENDING" else "PROCESSING") ++
    " after " ++ secondsStr t ++ "s - maximum wait time exceeded"

/-- `Task has unknown status ${status} after ${..}s`. -/
def unknownStatusMsg (status : Int) (t : Nat) : String :=
  "Task has unknown status " ++ toString status ++ " after " ++ secondsStr t ++ "s"

/-- The catch-clause wrap on the final attempt:
`Polling failed after ${n} attempts (${..}s total): ${error.message}`. -/
def pollFailMsg (t : Nat) (e : String) : String :=
  "Polling failed after " ++ toString pollingSchedule.length ++ " attempts (" ++
    secondsStr t ++ "s total): " ++ e

/-- The statement after the loop:
`Task did not complete within ${..} seconds (${n} attempts)`. -/
def timeoutMsg (t : Nat) : String :=
  "Task did not complete within " ++ secondsStr t ++ " seconds (" ++
    toString pollingSchedule.length ++ " attempts)"

/-- Outcome of the `try` body of one loop iteration: return a URL, throw
(to be handled by the `catch`), or `continue` to the next attempt. -/
inductive BodyOutcome
  | done (url : String)
  | thrown (e : String)
  | next
deriving Repr, DecidableEq

/-- The interpretation of one status response, lines 293-318 of the
service: status 2 returns the first image URL (or throws if the array is
empty), 3/4 throw a failure, 0/1 continue unless the schedule is
exhausted, anything else is "unknown" and is treated like pending. -/
def interpretStatus (task : TaskStatus) (attempt t : Nat) : BodyOutcome :=
  if task.status = 2 then
    match task.generated_image with
    | [] => .thrown "Task completed but no generated images found"
    | url :: _ => .done url
  else if task.status = 3 ∨ task.status = 4 then
    .thrown (taskFailedMsg task)
  else if task.status = 0 ∨ task.status = 1 then
    if pollingSchedule.length ≤ attempt then .thrown (stillPendingMsg task.status t)
    else .next
  else
    if pollingSchedule.length ≤ attempt then .thrown (unknownStatusMsg task.status t)
    else .next

/-- One iteration's `try` body: the status query itself may throw. -/
def pollBody (oracle : PollOracle) (attempt t : Nat) : BodyOutcome :=
  match oracle attempt with
  | .error e => .thrown e
  | .ok task => interpretStatus task attempt t

/-- Observable trace of one `pollTaskCompletion` run: the returned value or
thrown error, the number of status queries issued, the delay awaited before
each query, and the accumulated `totalTime`. -/
structure PollTrace where
  result : Except String String
  queries : Nat
  waits : List Nat
  totalTime : Nat
deriving Repr

/-- The `for (const { attempt, delay } of pollingSchedule)` loop.  The
delay is awaited (and added to `totalTime`) before the query; a thrown
error reaches the `catch`, which re-throws the wrap on the final attempt
and otherwise continues. -/
def pollLoop (oracle : PollOracle) :
    List (Nat × Nat) → Nat → Nat → List Nat → PollTrace
  | [], totalTime, queries, waits =>
      { result := .error (timeoutMsg totalTime), queries := queries,
        waits := waits, totalTime := totalTime }
  | (attempt, delay) :: rest, totalTime, queries, waits =>
      let t := totalTime + delay
      let w := waits ++ [delay]
      match pollBody oracle attempt t with
      | .done url => { result := .ok url, queries := queries + 1, waits := w, totalTime := t }
      | .next => pollLoop oracle rest t (queries + 1) w
      | .thrown e =>
          if attempt = pollingSchedule.length then
            { result := .error (pollFailMsg t e), queries := queries + 1,
              waits := w, totalTime := t }
          else pollLoop oracle rest t (queries + 1) w

/-- `GeminiGenImageService.pollTaskCompletion`. -/
def pollTaskCompletion (oracle : PollOracle) : PollTrace :=
  pollLoop oracle pollingSchedule 0 0 []

/-! ### Downstream service: `GeminiGenImageService.generateBrandingImage`

The whole method body is one `try { ... } catch (error) { return { success:
false, error: message } }`: every internal rejection is converted into a
resolved response value.  The collaborators (database lookup, content
generation, submit+poll, download) are abstracted as an environment of
`Except`-valued results; the prompt-string assembly is pure string
concatenation and cannot throw, so it does not appear as a failure source. -/

structure ImageBrandingResponse where
  success : Bool
  error : Option String
  imageUrl : Option String
deriving Repr, DecidableEq

structure GenEnv where
  apiKeyConfigured : Bool
  productName : String
  /-- `getProductData`: `.error` = database error rethrown, `.ok false` =
  no product found (null), `.ok true` = product found. -/
  productData : Except String Bool
  /-- `generateBrandingContent` — has its own internal try/catch that falls
  back to static content, so a failure here never escapes. -/
  brandingContent : Except String Unit
  /-- `generateImage` = submit + `pollTaskCompletion` + unwrap: `.ok` is the
  image URL, `.error` the thrown message (provider failure / poll timeout). -/
  generateImage : Except String String
  /-- `downloadAndSaveImage`. -/
  download : Except String String

/-- The `try` body of `generateBrandingImage` (lines 49-129). -/
def generateBrandingImageBody (env : GenEnv) : Except String ImageBrandingResponse :=
  if !env.apiKeyConfigured then
    .error "GeminiGen API key not configured"
  else
    match env.productData with
    | .error dbErr => .error dbErr
    | .ok false => .error ("Product \"" ++ env.productName ++ "\" not found")
    | .ok true =>
        -- any failure of generateBrandingContent is caught at lines 74-80
        -- and replaced by getFallbackBrandingContent; nothing escapes
        match env.brandingContent with
        | _ =>
          match env.generateImage with
          | .error e => .error e
          | .ok img =>
              match env.download with
              | .error e => .error e
              | .ok _saved =>
                  .ok { success := true, error := none, imageUrl := some img }

/-- `GeminiGenImageService.generateBrandingImage`: the catch clause (lines
131-137) turns every thrown error into a resolved `success:false`
response, so the returned promise always resolves. -/
def generateBrandingImage (env : GenEnv) : ImageBrandingResponse :=
  match generateBrandingImageBody env with
  | .ok r => r
  | .error m => { success := false, error := some m, imageUrl := none }

/-! ### Rate-limited wrapper: `RateLimitedImageService`

Error objects are represented by exactly the features the wrapper's code
inspects: the three `message.includes` probes and `response.status` used
by `isRateLimitError`, the three response locations read by
`extractRetryAfter`, and the result of the `retry_after['":\s]+(\d+)`
regex on the message used by `getRetryAfterTime`. -/

structure ApiError where
  msgTooManyRequests : Bool   -- message.includes('Too Many Requests')
  msg429 : Bool               -- message.includes('429')
  msgRateLimitMarker : Bool   -- message.includes('RATE_LIMIT_ERROR')
  responseStatus : Option Int -- error.response?.status
  detailRetryAfter : Option Nat -- error.response?.data?.detail?.retry_after
  dataRetryAfter : Option Nat   -- error.response?.data?.retry_after
  headerRetryAfter : Option Nat -- response headers retry-after / Retry-After
  msgRetryAfter : Option Nat    -- the regex capture on error.message, if any
deriving Repr, DecidableEq

/-- `RateLimitedImageService.isRateLimitError`. -/
def isRateLimitError (e : ApiError) : Bool :=
  e.msgTooManyRequests || e.msg429 || e.msgRateLimitMarker ||
    e.responseStatus == some 429

/-- JS `a || b || c || 0` truthiness chain: a present value of 0 is falsy
and falls through to the next candidate. -/
def firstTruthy : List (Option Nat) → Nat
  | [] => 0
  | some n :: rest => if n = 0 then firstTruthy rest else n
  | none :: rest => firstTruthy rest

/-- `RateLimitedImageService.extractRetryAfter` (seconds). -/
def extractRetryAfter (e : ApiError) : Nat :=
  firstTruthy [e.detailRetryAfter, e.dataRetryAfter, e.headerRetryAfter]

def maxRequestsPerMinute : Nat := 5

def requestWindow : Nat := 60000

/-- `cleanOldTimestamps`: keep entries with `now - t < requestWindow`. -/
def cleanOldTimestamps (now : Nat) (ts : List Nat) : List Nat :=
  ts.filter (fun t => now - t < requestWindow)

/-- `canMakeRequest`: returns the cleaned list (the method mutates
`requestTimestamps`) together with the admission decision. -/
def canMakeRequest (now : Nat) (ts : List Nat) : List Nat × Bool :=
  let c := cleanOldTimestamps now ts
  (c, c.length < maxRequestsPerMinute)

/-- `getNextAvailableTime`: 0 if below capacity, else time until the
oldest recorded admission leaves the window (clamped at 0 by `Nat`
subtraction, matching `Math.max(0, ...)`). -/
def getNextAvailableTime (now : Nat) (ts : List Nat) : List Nat × Nat :=
  let c := cleanOldTimestamps now ts
  if c.length < maxRequestsPerMinute then (c, 0)
  else
    match c with
    | [] => (c, 0)
    | oldest :: _ => (c, oldest + requestWindow - now)

/-- `getRetryAfterTime` (milliseconds): the regex capture times 1000 when
the message carries a retry hint, else `getNextAvailableTime() || 60000`
(with its cleaning side effect). -/
def getRetryAfterTime (e : ApiError) (now : Nat) (ts : List Nat) : List Nat × Nat :=
  match e.msgRetryAfter with
  | some n => (ts, n * 1000)
  | none =>
      let p := getNextAvailableTime now ts
      (p.1, if p.2 = 0 then 60000 else p.2)

/-- A queued request: caller identity plus the `timestamp` recorded at
`queueRequest` time (the `resolve`/`reject` sinks are represented by
events tagged with `id`). -/
structure QReq where
  id : Nat
  timestamp : Nat
deriving Repr, DecidableEq

/-- Stable insertion: place `x` after every entry whose timestamp is ≤ its
own. -/
def insertTs (x : QReq) : List QReq → List QReq
  | [] => [x]
  | y :: ys => if y.timestamp ≤ x.timestamp then y :: insertTs x ys else x :: y :: ys

/-- `requestQueue.sort((a, b) => a.timestamp - b.timestamp)`:
`Array.prototype.sort` is stable, so this is a stable sort by timestamp,
realised as a left-to-right stable insertion sort. -/
def sortTs (l : List QReq) : List QReq :=
  l.foldl (fun acc x => insertTs x acc) []

/-- Caller-observable events: downstream invocation starts and promise
settlements. -/
inductive Reason
  | queueClear       -- 'Request cancelled due to queue clear'
  | downstreamError  -- a non-rate-limit downstream error passed through
deriving Repr, DecidableEq

inductive Ev
  | started (id t : Nat)                    -- downstream call for `id` started at `t`
  | resolvedOk (id t : Nat)                 -- caller's promise resolved with the result
  | resolvedRateLimitMsg (id t mins : Nat)  -- fast path: resolved with the success:false "try again in N minutes" response
  | rejected (id t : Nat) (r : Reason)      -- caller's promise rejected
deriving Repr, DecidableEq

/-- The drain loop (`processQueue`) between two of its `await`s. -/
inductive DrainState
  | notRunning
  | sleeping (wakeAt : Nat)     -- awaiting `setTimeout(waitTime)` before the dequeue
  | calling (item : QReq)       -- awaiting the downstream call for `item`
  | retryWaiting (wakeAt : Nat) -- awaiting `setTimeout(retryWait)` after a front requeue
deriving Repr, DecidableEq

structure RLState where
  now : Nat
  requestTimestamps : List Nat
  requestQueue : List QReq
  isProcessingQueue : Bool
  drain : DrainState
  fastInFlight : List QReq
  events : List Ev
deriving Repr, DecidableEq

/-- The shift/admit/invoke block of the drain loop (lines 207-215): runs
right after the capacity sleep with no re-check.  An empty queue is the
`if (!queueItem) break` path. -/
def dequeueAndCall (s : RLState) : RLState :=
  match s.requestQueue with
  | [] => { s with isProcessingQueue := false, drain := .notRunning }
  | item :: rest =>
      { s with requestQueue := rest,
               requestTimestamps := s.requestTimestamps ++ [s.now],
               drain := .calling item,
               events := s.events ++ [Ev.started item.id s.now] }

/-- Top of the `while (this.requestQueue.length > 0)` loop: exit and clear
the flag when empty, otherwise compute the capacity wait and either sleep
or dequeue immediately. -/
def drainLoopHead (s : RLState) : RLState :=
  if s.requestQueue.length == 0 then
    { s with isProcessingQueue := false, drain := .notRunning }
  else
    let p := getNextAvailableTime s.now s.requestTimestamps
    let s1 := { s with requestTimestamps := p.1 }
    if 0 < p.2 then { s1 with drain := .sleeping (s.now + p.2) }
    else dequeueAndCall s1

/-- `processQueue`'s idempotent entry (lines 192-196): a no-op when the
loop is already running or the queue is empty; otherwise set the flag and
run the loop synchronously up to its first `await`. -/
def startProcessQueue (s : RLState) : RLState :=
  if s.isProcessingQueue || s.requestQueue.length == 0 then s
  else drainLoopHead { s with isProcessingQueue := true }

/-- `queueRequest`: push with a fresh `Date.now()` timestamp, re-sort the
queue by timestamp, and kick `processQueue`. -/
def queueRequest (s : RLState) (id : Nat) : RLState :=
  let req : QReq := { id := id, timestamp := s.now }
  startProcessQueue { s with requestQueue := sortTs (s.requestQueue ++ [req]) }

/-- The synchronous prefix of the public
`RateLimitedImageService.generateBrandingImage` (the fast path, lines
45-78): admit immediately when the window allows, else queue. -/
def submitArrive (s : RLState) (id : Nat) : RLState :=
  let p := canMakeRequest s.now s.requestTimestamps
  if p.2 then
    { s with requestTimestamps := p.1 ++ [s.now],
             fastInFlight := s.fastInFlight ++ [⟨id, s.now⟩],
             events := s.events ++ [Ev.started id s.now] }
  else
    queueRequest { s with requestTimestamps := p.1 } id

/-- How a downstream promise settles, as seen by the wrapper's `await`. -/
inductive DownstreamOutcome
  | resolved
  | rejectedWith (e : ApiError)
deriving Repr, DecidableEq

/-- Fast-path continuation after the downstream promise settles (lines
50-78): a classified rate-limit rejection pops the just-added timestamp,
then either surfaces the "try again in N minutes" response (hint > 300 s)
or re-queues the request; other rejections are re-thrown to the caller. -/
def handleFastComplete (s : RLState) (item : QReq) (o : DownstreamOutcome) : RLState :=
  match o with
  | .resolved => { s with events := s.events ++ [Ev.resolvedOk item.id s.now] }
  | .rejectedWith e =>
      if isRateLimitError e then
        let s1 := { s with requestTimestamps := s.requestTimestamps.dropLast }
        let ra := extractRetryAfter e
        if 300 < ra then
          { s1 with events := s1.events ++ [Ev.resolvedRateLimitMsg item.id s.now (ra / 60)] }
        else
          queueRequest s1 item.id
      else
        { s with events := s.events ++ [Ev.rejected item.id s.now Reason.downstreamError] }

/-- Drain-loop continuation after the downstream promise settles (lines
215-240): success resolves the item and continues the loop; a classified
rate-limit rejection pops the newest timestamp, unshifts the item back to
the front and sleeps `getRetryAfterTime`; other rejections reject the
item and continue the loop. -/
def handleDrainComplete (s : RLState) (item : QReq) (o : DownstreamOutcome) : RLState :=
  match o with
  | .resolved =>
      drainLoopHead { s with events := s.events ++ [Ev.resolvedOk item.id s.now] }
  | .rejectedWith e =>
      if isRateLimitError e then
        let ts1 := s.requestTimestamps.dropLast
        let p := getRetryAfterTime e s.now ts1
        { s with requestTimestamps := p.1,
                 requestQueue := item :: s.requestQueue,
                 drain := .retryWaiting (s.now + p.2) }
      else
        drainLoopHead { s with
          events := s.events ++ [Ev.rejected item.id s.now Reason.downstreamError] }

/-- `clearQueue`: reject every pending request and empty the queue. -/
def clearQueue (s : RLState) : RLState :=
  { s with
    events := s.events ++ s.requestQueue.map (fun i => Ev.rejected i.id s.now Reason.queueClear),
    requestQueue := [] }

/-- External choices of the event loop: clock advance (never past a
pending timer), a caller arrival, a downstream settlement, a timer
firing, an administrative clear. -/
inductive Cmd
  | advanceTo (t : Nat)
  | arrive (id : Nat)
  | fastComplete (id : Nat) (o : DownstreamOutcome)
  | fireTimer
  | drainComplete (o : DownstreamOutcome)
  | clear
deriving Repr, DecidableEq

def timerDue (s : RLState) : Option Nat :=
  match s.drain with
  | .sleeping t => some t
  | .retryWaiting t => some t
  | _ => none

/-- One scheduling step; `none` means the command is not enabled (so every
`some`-run is a real interleaving of the TypeScript event loop). -/
def rlStep (s : RLState) : Cmd → Option RLState
  | .advanceTo t =>
      if s.now ≤ t &&
          (match timerDue s with
           | some d => decide (t ≤ d)
           | none => true) then
        some { s with now := t }
      else none
  | .arrive id => some (submitArrive s id)
  | .fastComplete id o =>
      match s.fastInFlight.find? (fun q => q.id == id) with
      | some item =>
          some (handleFastComplete
            { s with fastInFlight := s.fastInFlight.filter (fun q => q.id != id) } item o)
      | none => none
  | .fireTimer =>
      match s.drain with
      | .sleeping w =>
          if w ≤ s.now then some (dequeueAndCall { s with drain := .notRunning }) else none
      | .retryWaiting w =>
          if w ≤ s.now then some (drainLoopHead { s with drain := .notRunning }) else none
      | _ => none
  | .drainComplete o =>
      match s.drain with
      | .calling item => some (handleDrainComplete { s with drain := .notRunning } item o)
      | _ => none
  | .clear => some (clearQueue s)

def rlRun (s : RLState) (cmds : List Cmd) : Option RLState :=
  cmds.foldlM rlStep s

def rlInit : RLState :=
  { now := 0, requestTimestamps := [], requestQueue := [], isProcessingQueue := false,
    drain := .notRunning, fastInFlight := [], events := [] }

/-- Times at which downstream invocations started. -/
def startedTimes (s : RLState) : List Nat :=
  s.events.filterMap (fun e => match e with | .started _ t => some t | _ => none)

/-- Downstream invocations started within the trailing window ending now. -/
def startsInWindow (s : RLState) : Nat :=
  ((startedTimes s).filter (fun t => s.now - t < requestWindow)).length

/-- Ids of started downstream invocations, in start order. -/
def startedIds (s : RLState) : List Nat :=
  s.events.filterMap (fun e => match e with | .started i _ => some i | _ => none)

/-- Number of downstream invocations started for a given request id. -/
def countStarts (id : Nat) (s : RLState) : Nat :=
  (s.events.filter (fun e => match e with | .started i _ => i == id | _ => false)).length

def isResolutionFor (id : Nat) : Ev → Bool
  | .resolvedOk i _ => i == id
  | .resolvedRateLimitMsg i _ _ => i == id
  | .rejected i _ _ => i == id
  | .started _ _ => false

/-- The settlement events of a given caller's promise. -/
def resolutionEvents (id : Nat) (evs : List Ev) : List Ev :=
  evs.filter (isResolutionFor id)

/-- Enqueue a batch of newcomers one by one, as successive `queueRequest`
calls do (push + stable re-sort each time). -/
def enqueueMany (q : List QReq) (xs : List QReq) : List QReq :=
  xs.foldl (fun acc x => sortTs (acc ++ [x])) q

/-! ### Concrete interleavings used as failing inputs -/

/-- Five admissions filling the window (one at t=0, four at t=1), a sixth
caller queued (the drain loop sleeps until the oldest admission expires at
t=60000), then — at the wake instant — a seventh caller is admitted on the
fast path before the drain's timer callback runs. -/
def c1Script : List Cmd :=
  [ .arrive 1, .advanceTo 1, .arrive 2, .arrive 3, .arrive 4, .arrive 5,
    .arrive 6, .advanceTo 60000, .arrive 7, .fireTimer ]

/-- Rate-limit error whose response carries `retry-after: 10` seconds. -/
def rlErrA : ApiError :=
  { msgTooManyRequests := false, msg429 := true, msgRateLimitMarker := false,
    responseStatus := none, detailRetryAfter := none, dataRetryAfter := none,
    headerRetryAfter := some 10, msgRetryAfter := none }

/-- Rate-limit error whose message carries `retry_after: 1` second. -/
def rlErrB : ApiError :=
  { msgTooManyRequests := false, msg429 := true, msgRateLimitMarker := false,
    responseStatus := none, detailRetryAfter := none, dataRetryAfter := none,
    headerRetryAfter := none, msgRetryAfter := some 1 }

/-- Request A (id 5) is admitted on the fast path at t=0, request B (id 6)
queues at t=1; at t=2 A's downstream call fails with a classified
rate-limit error (hint 10 s ≤ 300), so A is re-queued with timestamp 2 —
behind B; the drain loop then serves B first at t=60000. -/
def c2Script : List Cmd :=
  [ .arrive 1, .arrive 2, .arrive 3, .arrive 4, .arrive 5,
    .advanceTo 1, .arrive 6, .advanceTo 2,
    .fastComplete 5 (.rejectedWith rlErrA),
    .advanceTo 60000, .fireTimer ]

/-- Window filled at t=0, request 6 queued; the drain loop admits it at
t=60000 (recording timestamp 60000). -/
def c5ScriptA : List Cmd :=
  [ .arrive 1, .arrive 2, .arrive 3, .arrive 4, .arrive 5,
    .arrive 6, .advanceTo 60000 ]

/-- Continuation: while the drain's call for request 6 is in flight, a
fast-path request 7 is admitted at t=60001 (recording timestamp 60001);
then the drain call fails rate-limited and `pop()` removes the newest
timestamp — request 7's, not its own. -/
def c5ScriptB : List Cmd :=
  [ .fireTimer, .advanceTo 60001, .arrive 7,
    .drainComplete (.rejectedWith rlErrB) ]

/-! ### Claim theorems -/

/-- Claim C1 (the code violates it): there is a real interleaving — a
fast-path arrival processed at the drain loop's wake instant, before its
timer callback — after which six downstream invocations have started
within one trailing 60000 ms window, and the recorded timestamp list
holds six entries newer than `now - 60000`.  The drain loop sleeps
between computing the capacity wait and recording its admission and never
re-checks `canMakeRequest` after waking (lines 199-211). -/
theorem c1_window_overflow :
    ∃ S, rlRun rlInit c1Script = some S ∧
      maxRequestsPerMinute < (cleanOldTimestamps S.now S.requestTimestamps).length ∧
      maxRequestsPerMinute < startsInWindow S :=
  ⟨_, rfl, by decide, by decide⟩

/-- Claim C2 counterexample: request A (id 5) is admitted on the fast path
and fails provider-rate-limited while request B (id 6) waits in the queue,
yet B is served before A is retried: after the run the drain loop is
calling B while A (re-queued with its fresh timestamp 2) is still waiting,
and A has been admitted downstream exactly once. -/
theorem c2_fast_requeue_counterexample :
    ∃ S, rlRun rlInit c2Script = some S ∧
      S.drain = DrainState.calling ⟨6, 1⟩ ∧
      S.requestQueue = [⟨5, 2⟩] ∧
      Ev.started 5 0 ∈ S.events ∧
      countStarts 5 S = 1 :=
  ⟨_, rfl, by decide, by decide, by decide, by decide⟩

/-- Claim C5 (the code violates it): just before the drain loop's
admission the window count is 0; the drain admits request 6 (stamping
60000), a fast-path admission interleaves (stamping 60001), and when the
drain call fails rate-limited the code pops the newest stamp — request
7's 60001 — leaving its own admission stamp 60000 recorded, so the window
count after the failure is 1, not the pre-admission 0.  The retry-after
wait itself is honored (drain sleeps `1 * 1000` ms). -/
theorem c5_unrecord_wrong_timestamp :
    ∃ P S, rlRun rlInit c5ScriptA = some P ∧ rlRun P c5ScriptB = some S ∧
      (cleanOldTimestamps P.now P.requestTimestamps).length = 0 ∧
      S.requestTimestamps = [60000] ∧
      (cleanOldTimestamps S.now S.requestTimestamps).length = 1 ∧
      S.drain = DrainState.retryWaiting (S.now + 1000) :=
  ⟨_, _, rfl, rfl, by decide, by decide, by decide, by decide⟩

/-- Claim C9: `clearQueue` rejects every pending request with the
queue-clear reason, empties the queue, and leaves the rate window, the
drain loop and in-flight downstream calls untouched. -/
theorem c9_clear_queue (s : RLState) :
    (clearQueue s).requestQueue = [] ∧
    (∀ item ∈ s.requestQueue,
      Ev.rejected item.id s.now Reason.queueClear ∈ (clearQueue s).events) ∧
    (clearQueue s).drain = s.drain ∧
    (clearQueue s).fastInFlight = s.fastInFlight ∧
    (clearQueue s).requestTimestamps = s.requestTimestamps := by
  refine ⟨rfl, ?_, rfl, rfl, rfl⟩
  intro item hmem
  simp only [clearQueue, List.mem_append, List.mem_map]
  exact Or.inr ⟨item, hmem, rfl⟩

/-- Witness for C9 at a concrete state with two queued requests. -/
theorem c9_clear_queue_witness :
    (clearQueue { now := 7, requestTimestamps := [1, 2], requestQueue := [⟨3, 5⟩, ⟨4, 6⟩],
                  isProcessingQueue := true, drain := DrainState.sleeping 60001,
                  fastInFlight := [⟨9, 2⟩], events := [] }).requestQueue = [] ∧
    Ev.rejected 3 7 Reason.queueClear ∈
      (clearQueue { now := 7, requestTimestamps := [1, 2], requestQueue := [⟨3, 5⟩, ⟨4, 6⟩],
                    isProcessingQueue := true, drain := DrainState.sleeping 60001,
                    fastInFlight := [⟨9, 2⟩], events := [] }).events :=
  ⟨(c9_clear_queue _).1, (c9_clear_queue _).2.1 ⟨3, 5⟩ (by decide)⟩

/-! ### Queue-order lemmas for the stable timestamp sort -/

theorem insertTs_cons_min (A x : QReq) (l : List QReq)
    (h : A.timestamp ≤ x.timestamp) :
    insertTs x (A :: l) = A :: insertTs x l := by
  simp [insertTs, h]

theorem foldl_insertTs_cons_min (A : QReq) (l acc : List QReq)
    (h : ∀ b ∈ l, A.timestamp ≤ b.timestamp) :
    l.foldl (fun acc x => insertTs x acc) (A :: acc) =
      A :: l.foldl (fun acc x => insertTs x acc) acc := by
  induction l generalizing acc with
  | nil => rfl
  | cons x xs ih =>
      simp only [List.foldl_cons]
      rw [insertTs_cons_min A x acc (h x (by simp))]
      exact ih _ (fun b hb => h b (by simp [hb]))

/-- A request whose timestamp is minimal stays at the front of the stable
sort. -/
theorem sortTs_cons_min (A : QReq) (l : List QReq)
    (h : ∀ b ∈ l, A.timestamp ≤ b.timestamp) :
    sortTs (A :: l) = A :: sortTs l := by
  unfold sortTs
  simpa using foldl_insertTs_cons_min A l [] h

theorem mem_insertTs (b x : QReq) (l : List QReq) :
    b ∈ insertTs x l ↔ b = x ∨ b ∈ l := by
  induction l with
  | nil => simp [insertTs]
  | cons y ys ih =>
      by_cases h : y.timestamp ≤ x.timestamp
      · simp only [insertTs, if_pos h, List.mem_cons, ih]
        try tauto
      · simp only [insertTs, if_neg h, List.mem_cons]
        try tauto

theorem mem_foldl_insertTs (b : QReq) (l acc : List QReq) :
    b ∈ l.foldl (fun acc x => insertTs x acc) acc ↔ b ∈ acc ∨ b ∈ l := by
  induction l generalizing acc with
  | nil => simp
  | cons x xs ih =>
      simp only [List.foldl_cons, ih, mem_insertTs, List.mem_cons]
      tauto

/-- Sorting does not change the set of queued requests. -/
theorem mem_sortTs (b : QReq) (l : List QReq) : b ∈ sortTs l ↔ b ∈ l := by
  simp [sortTs, mem_foldl_insertTs]

/-- A front item with minimal timestamp survives any run of later
`queueRequest` insertions at the front of the queue. -/
theorem enqueueMany_keeps_min_front (A : QReq) (t xs : List QReq)
    (ht : ∀ b ∈ t, A.timestamp ≤ b.timestamp)
    (hx : ∀ b ∈ xs, A.timestamp ≤ b.timestamp) :
    ∃ t', enqueueMany (A :: t) xs = A :: t' ∧ ∀ b ∈ t', A.timestamp ≤ b.timestamp := by
  induction xs generalizing t with
  | nil => exact ⟨t, rfl, ht⟩
  | cons x rest ih =>
      have hmem : ∀ b ∈ t ++ [x], A.timestamp ≤ b.timestamp := by
        intro b hb
        rcases List.mem_append.mp hb with hb | hb
        · exact ht b hb
        · simp only [List.mem_singleton] at hb
          exact hb ▸ hx x (by simp)
      have hstep : sortTs (A :: (t ++ [x])) = A :: sortTs (t ++ [x]) :=
        sortTs_cons_min A (t ++ [x]) hmem
      have hbound : ∀ b ∈ sortTs (t ++ [x]), A.timestamp ≤ b.timestamp :=
        fun b hb => hmem b ((mem_sortTs b (t ++ [x])).mp hb)
      have h2 := ih (sortTs (t ++ [x])) hbound (fun b hb => hx b (by simp [hb]))
      simpa [enqueueMany, hstep] using h2

/-- Claim C2 (amended): the retry-precedence guarantee holds for
drain-loop admissions.  When the drain loop's in-flight item A fails with
a classified rate-limit error it is unshifted to the front of the queue;
because A's arrival timestamp is ≤ that of every waiting request and of
every later arrival, A stays at the front through any further
`queueRequest` insertions (push + stable timestamp sort), and the drain
loop's next dequeue admits A before any other waiting request.  (A
fast-path admission that fails rate-limited instead re-enters through
`queueRequest` with a fresh timestamp and is served after already-waiting
requests — see the counterexample.) -/
theorem c2_retry_precedence_amended (s : RLState) (A : QReq) (e : ApiError)
    (newcomers : List QReq)
    (hrl : isRateLimitError e = true)
    (hq : ∀ b ∈ s.requestQueue, A.timestamp ≤ b.timestamp)
    (hn : ∀ b ∈ newcomers, A.timestamp ≤ b.timestamp) :
    (handleDrainComplete s A (.rejectedWith e)).requestQueue = A :: s.requestQueue
    ∧ (enqueueMany (A :: s.requestQueue) newcomers).head? = some A
    ∧ ∀ s2 rest, s2.requestQueue = A :: rest →
        (dequeueAndCall s2).drain = DrainState.calling A
        ∧ Ev.started A.id s2.now ∈ (dequeueAndCall s2).events := by
  refine ⟨?_, ?_, ?_⟩
  · simp [handleDrainComplete, hrl]
  · obtain ⟨t', h1, _⟩ := enqueueMany_keeps_min_front A s.requestQueue newcomers hq hn
    simp [h1]
  · intro s2 rest h
    constructor
    · simp [dequeueAndCall, h]
    · simp [dequeueAndCall, h]

/-- Concrete drain-loop state for the C2 witness: item ⟨1,3⟩ in flight,
two younger requests waiting. -/
def c2wState : RLState :=
  { now := 50, requestTimestamps := [10, 20], requestQueue := [⟨2, 8⟩, ⟨3, 9⟩],
    isProcessingQueue := true, drain := DrainState.calling ⟨1, 3⟩,
    fastInFlight := [], events := [] }

def c2wState2 : RLState :=
  { c2wState with requestQueue := ⟨1, 3⟩ :: c2wState.requestQueue }

/-- Witness for the amended C2 at a concrete state. -/
theorem c2_retry_precedence_amended_witness :
    (handleDrainComplete c2wState ⟨1, 3⟩ (.rejectedWith rlErrA)).requestQueue
        = ⟨1, 3⟩ :: c2wState.requestQueue
    ∧ (enqueueMany (⟨1, 3⟩ :: c2wState.requestQueue) [⟨9, 50⟩]).head? = some ⟨1, 3⟩
    ∧ (dequeueAndCall c2wState2).drain = DrainState.calling ⟨1, 3⟩ := by
  have h := c2_retry_precedence_amended c2wState ⟨1, 3⟩ rlErrA [⟨9, 50⟩]
    (by decide) (by decide) (by decide)
  exact ⟨h.1, h.2.1, (h.2.2 c2wState2 c2wState.requestQueue rfl).1⟩

/-- Starting state for the C7 run: five admissions at ms 1..5 fill the
window, the requests in `q` were queued while at capacity, and the drain
loop is sleeping until the oldest admission expires at 60001. -/
def c7Start (q : List QReq) : RLState :=
  { now := 5, requestTimestamps := [1, 2, 3, 4, 5], requestQueue := q,
    isProcessingQueue := true, drain := DrainState.sleeping 60001,
    fastInFlight := [], events := [] }

/-- The drain loop serving three queued requests with no new arrivals and
all-successful downstream calls: one slot frees per expiring admission. -/
def c7Script : List Cmd :=
  [ .advanceTo 60001, .fireTimer, .drainComplete .resolved,
    .advanceTo 60002, .fireTimer, .drainComplete .resolved,
    .advanceTo 60003, .fireTimer, .drainComplete .resolved ]

theorem rlRun_cons (s s2 : RLState) (c : Cmd) (cs : List Cmd)
    (h : rlStep s c = some s2) : rlRun s (c :: cs) = rlRun s2 cs := by
  simp [rlRun, List.foldlM, h]

/-- Evaluation lemma for the drain-loop head when the computed capacity
wait is positive: the loop cleans the window and sleeps. -/
theorem drainLoopHead_sleep (s : RLState) (c : List Nat) (w : Nat)
    (hne : (s.requestQueue.length == 0) = false)
    (hp : getNextAvailableTime s.now s.requestTimestamps = (c, w))
    (hw : 0 < w) :
    drainLoopHead s =
      { s with requestTimestamps := c, drain := DrainState.sleeping (s.now + w) } := by
  simp only [drainLoopHead, hne, hp]
  simp [hw]

/-- Evaluation lemma for the drain-loop head when the computed capacity
wait is zero: the loop dequeues immediately. -/
theorem drainLoopHead_dequeue (s : RLState) (c : List Nat)
    (hne : (s.requestQueue.length == 0) = false)
    (hp : getNextAvailableTime s.now s.requestTimestamps = (c, 0)) :
    drainLoopHead s = dequeueAndCall { s with requestTimestamps := c } := by
  simp [drainLoopHead, hne, hp]

/-- Evaluation lemma for the drain-loop head on an empty queue: the loop
exits and clears its flag. -/
theorem drainLoopHead_exit (s : RLState)
    (h : (s.requestQueue.length == 0) = true) :
    drainLoopHead s =
      { s with isProcessingQueue := false, drain := DrainState.notRunning } := by
  simp [drainLoopHead, h]

/-- The C7 run, stepped through explicitly: with no rate-limit retries the
drain loop admits the three queued requests in queue order, one per
expiring window slot. -/
theorem c7_run (A B C : QReq) :
    (rlRun (c7Start [A, B, C]) c7Script).map startedIds = some [A.id, B.id, C.id] := by
  have e1 : rlStep (c7Start [A, B, C]) (Cmd.advanceTo 60001) = some
      { now := 60001, requestTimestamps := [1, 2, 3, 4, 5], requestQueue := [A, B, C],
        isProcessingQueue := true, drain := DrainState.sleeping 60001,
        fastInFlight := [], events := [] } := rfl
  have e2 : rlStep
      { now := 60001, requestTimestamps := [1, 2, 3, 4, 5], requestQueue := [A, B, C],
        isProcessingQueue := true, drain := DrainState.sleeping 60001,
        fastInFlight := [], events := ([] : List Ev) } Cmd.fireTimer = some
      { now := 60001, requestTimestamps := [1, 2, 3, 4, 5, 60001], requestQueue := [B, C],
        isProcessingQueue := true, drain := DrainState.calling A,
        fastInFlight := [], events := [Ev.started A.id 60001] } := rfl
  have e3a : rlStep
      { now := 60001, requestTimestamps := [1, 2, 3, 4, 5, 60001], requestQueue := [B, C],
        isProcessingQueue := true, drain := DrainState.calling A,
        fastInFlight := [], events := [Ev.started A.id 60001] }
      (Cmd.drainComplete .resolved) = some (drainLoopHead
      { now := 60001, requestTimestamps := [1, 2, 3, 4, 5, 60001], requestQueue := [B, C],
        isProcessingQueue := true, drain := DrainState.notRunning,
        fastInFlight := [],
        events := [Ev.started A.id 60001, Ev.resolvedOk A.id 60001] }) := rfl
  have e3b : drainLoopHead
      { now := 60001, requestTimestamps := [1, 2, 3, 4, 5, 60001], requestQueue := [B, C],
        isProcessingQueue := true, drain := DrainState.notRunning,
        fastInFlight := [],
        events := [Ev.started A.id 60001, Ev.resolvedOk A.id 60001] } =
      { now := 60001, requestTimestamps := [2, 3, 4, 5, 60001], requestQueue := [B, C],
        isProcessingQueue := true, drain := DrainState.sleeping 60002,
        fastInFlight := [],
        events := [Ev.started A.id 60001, Ev.resolvedOk A.id 60001] } :=
    drainLoopHead_sleep _ [2, 3, 4, 5, 60001] 1 rfl
      (by show getNextAvailableTime 60001 [1, 2, 3, 4, 5, 60001] = ([2, 3, 4, 5, 60001], 1)
          decide)
      (by decide)
  have e4 : rlStep
      { now := 60001, requestTimestamps := [2, 3, 4, 5, 60001], requestQueue := [B, C],
        isProcessingQueue := true, drain := DrainState.sleeping 60002,
        fastInFlight := [],
        events := [Ev.started A.id 60001, Ev.resolvedOk A.id 60001] }
      (Cmd.advanceTo 60002) = some
      { now := 60002, requestTimestamps := [2, 3, 4, 5, 60001], requestQueue := [B, C],
        isProcessingQueue := true, drain := DrainState.sleeping 60002,
        fastInFlight := [],
        events := [Ev.started A.id 60001, Ev.resolvedOk A.id 60001] } := rfl
  have e5 : rlStep
      { now := 60002, requestTimestamps := [2, 3, 4, 5, 60001], requestQueue := [B, C],
        isProcessingQueue := true, drain := DrainState.sleeping 60002,
        fastInFlight := [],
        events := [Ev.started A.id 60001, Ev.resolvedOk A.id 60001] }
      Cmd.fireTimer = some
      { now := 60002, requestTimestamps := [2, 3, 4, 5, 60001, 60002], requestQueue := [C],
        isProcessingQueue := true, drain := DrainState.calling B,
        fastInFlight := [],
        events := [Ev.started A.id 60001, Ev.resolvedOk A.id 60001,
                   Ev.started B.id 60002] } := rfl
  have e6a : rlStep
      { now := 60002, requestTimestamps := [2, 3, 4, 5, 60001, 60002], requestQueue := [C],
        isProcessingQueue := true, drain := DrainState.calling B,
        fastInFlight := [],
        events := [Ev.started A.id 60001, Ev.resolvedOk A.id 60001,
                   Ev.started B.id 60002] }
      (Cmd.drainComplete .resolved) = some (drainLoopHead
      { now := 60002, requestTimestamps := [2, 3, 4, 5, 60001, 60002], requestQueue := [C],
        isProcessingQueue := true, drain := DrainState.notRunning,
        fastInFlight := [],
        events := [Ev.started A.id 60001, Ev.resolvedOk A.id 60001,
                   Ev.started B.id 60002, Ev.resolvedOk B.id 60002] }) := rfl
  have e6b : drainLoopHead
      { now := 60002, requestTimestamps := [2, 3, 4, 5, 60001, 60002], requestQueue := [C],
        isProcessingQueue := true, drain := DrainState.notRunning,
        fastInFlight := [],
        events := [Ev.started A.id 60001, Ev.resolvedOk A.id 60001,
                   Ev.started B.id 60002, Ev.resolvedOk B.id 60002] } =
      { now := 60002, requestTimestamps := [3, 4, 5, 60001, 60002], requestQueue := [C],
        isProcessingQueue := true, drain := DrainState.sleeping 60003,
        fastInFlight := [],
        events := [Ev.started A.id 60001, Ev.resolvedOk A.id 60001,
                   Ev.started B.id 60002, Ev.resolvedOk B.id 60002] } :=
    drainLoopHead_sleep _ [3, 4, 5, 60001, 60002] 1 rfl
      (by show getNextAvailableTime 60002 [2, 3, 4, 5, 60001, 60002] = ([3, 4, 5, 60001, 60002], 1)
          decide)
      (by decide)
  have e7 : rlStep
      { now := 60002, requestTimestamps := [3, 4, 5, 60001, 60002], requestQueue := [C],
        isProcessingQueue := true, drain := DrainState.sleeping 60003,
        fastInFlight := [],
        events := [Ev.started A.id 60001, Ev.resolvedOk A.id 60001,
                   Ev.started B.id 60002, Ev.resolvedOk B.id 60002] }
      (Cmd.advanceTo 60003) = some
      { now := 60003, requestTimestamps := [3, 4, 5, 60001, 60002], requestQueue := [C],
        isProcessingQueue := true, drain := DrainState.sleeping 60003,
        fastInFlight := [],
        events := [Ev.started A.id 60001, Ev.resolvedOk A.id 60001,
                   Ev.started B.id 60002, Ev.resolvedOk B.id 60002] } := rfl
  have e8 : rlStep
      { now := 60003, requestTimestamps := [3, 4, 5, 60001, 60002], requestQueue := [C],
        isProcessingQueue := true, drain := DrainState.sleeping 60003,
        fastInFlight := [],
        events := [Ev.started A.id 60001, Ev.resolvedOk A.id 60001,
                   Ev.started B.id 60002, Ev.resolvedOk B.id 60002] }
      Cmd.fireTimer = some
      { now := 60003, requestTimestamps := [3, 4, 5, 60001, 60002, 60003],
        requestQueue := [],
        isProcessingQueue := true, drain := DrainState.calling C,
        fastInFlight := [],
        events := [Ev.started A.id 60001, Ev.resolvedOk A.id 60001,
                   Ev.started B.id 60002, Ev.resolvedOk B.id 60002,
                   Ev.started C.id 60003] } := rfl
  have e9a : rlStep
      { now := 60003, requestTimestamps := [3, 4, 5, 60001, 60002, 60003],
        requestQueue := [],
        isProcessingQueue := true, drain := DrainState.calling C,
        fastInFlight := [],
        events := [Ev.started A.id 60001, Ev.resolvedOk A.id 60001,
                   Ev.started B.id 60002, Ev.resolvedOk B.id 60002,
                   Ev.started C.id 60003] }
      (Cmd.drainComplete .resolved) = some (drainLoopHead
      { now := 60003, requestTimestamps := [3, 4, 5, 60001, 60002, 60003],
        requestQueue := [],
        isProcessingQueue := true, drain := DrainState.notRunning,
        fastInFlight := [],
        events := [Ev.started A.id 60001, Ev.resolvedOk A.id 60001,
                   Ev.started B.id 60002, Ev.resolvedOk B.id 60002,
                   Ev.started C.id 60003, Ev.resolvedOk C.id 60003] }) := rfl
  have e9b : drainLoopHead
      { now := 60003, requestTimestamps := [3, 4, 5, 60001, 60002, 60003],
        requestQueue := [],
        isProcessingQueue := true, drain := DrainState.notRunning,
        fastInFlight := [],
        events := [Ev.started A.id 60001, Ev.resolvedOk A.id 60001,
                   Ev.started B.id 60002, Ev.resolvedOk B.id 60002,
                   Ev.started C.id 60003, Ev.resolvedOk C.id 60003] } =
      { now := 60003, requestTimestamps := [3, 4, 5, 60001, 60002, 60003],
        requestQueue := [],
        isProcessingQueue := false, drain := DrainState.notRunning,
        fastInFlight := [],
        events := [Ev.started A.id 60001, Ev.resolvedOk A.id 60001,
                   Ev.started B.id 60002, Ev.resolvedOk B.id 60002,
                   Ev.started C.id 60003, Ev.resolvedOk C.id 60003] } :=
    drainLoopHead_exit _ rfl
  have e3 := e3a.trans (congrArg some e3b)
  have e6 := e6a.trans (congrArg some e6b)
  have e9 := e9a.trans (congrArg some e9b)
  simp only [c7Script]
  rw [rlRun_cons _ _ _ _ e1, rlRun_cons _ _ _ _ e2, rlRun_cons _ _ _ _ e3,
      rlRun_cons _ _ _ _ e4, rlRun_cons _ _ _ _ e5, rlRun_cons _ _ _ _ e6,
      rlRun_cons _ _ _ _ e7, rlRun_cons _ _ _ _ e8, rlRun_cons _ _ _ _ e9]
  rfl

/-- Claim C7: requests A, B, C enqueued in that order (their arrival
timestamps are nondecreasing, possibly equal) while the window is at
capacity end up queued as [A, B, C] — `queueRequest`'s push + stable sort
preserves arrival order, including ties — and the drain loop, absent
rate-limit retries, admits them downstream in exactly that order. -/
theorem c7_fifo_order (A B C : QReq)
    (hAB : A.timestamp ≤ B.timestamp) (hBC : B.timestamp ≤ C.timestamp) :
    enqueueMany [] [A, B, C] = [A, B, C]
    ∧ (rlRun (c7Start (enqueueMany [] [A, B, C])) c7Script).map startedIds
        = some [A.id, B.id, C.id] := by
  have hAC : A.timestamp ≤ C.timestamp := le_trans hAB hBC
  have h1 : enqueueMany [] [A, B, C] = [A, B, C] := by
    simp [enqueueMany, sortTs, insertTs, hAB, hBC, hAC]
  refine ⟨h1, ?_⟩
  rw [h1]
  exact c7_run A B C

/-- Witness for C7 with three equal arrival timestamps (the tie case). -/
theorem c7_fifo_order_witness :
    enqueueMany [] [⟨6, 5⟩, ⟨7, 5⟩, ⟨8, 5⟩] = [⟨6, 5⟩, ⟨7, 5⟩, ⟨8, 5⟩]
    ∧ (rlRun (c7Start (enqueueMany [] [⟨6, 5⟩, ⟨7, 5⟩, ⟨8, 5⟩])) c7Script).map startedIds
        = some [6, 7, 8] :=
  c7_fifo_order ⟨6, 5⟩ ⟨7, 5⟩ ⟨8, 5⟩ (by decide) (by decide)

/-! ### C8: surfacing policy of the fast path -/

theorem resolutionEvents_append_started (j i t : Nat) (evs : List Ev) :
    resolutionEvents j (evs ++ [Ev.started i t]) = resolutionEvents j evs := by
  simp [resolutionEvents, List.filter_append, isResolutionFor]

/-- `queueRequest` settles no caller promise: it only queues (and may start
the drain loop, which at most records a `started` event). -/
theorem queueRequest_resolutions (s : RLState) (id j : Nat) :
    resolutionEvents j (queueRequest s id).events = resolutionEvents j s.events := by
  unfold queueRequest startProcessQueue
  cases h1 : (s.isProcessingQueue ||
      (sortTs (s.requestQueue ++ [({ id := id, timestamp := s.now } : QReq)])).length == 0) with
  | true => simp [h1]
  | false =>
      simp only [h1, Bool.false_eq_true, if_false]
      unfold drainLoopHead
      cases h2 : ((sortTs (s.requestQueue ++
          [({ id := id, timestamp := s.now } : QReq)])).length == 0) with
      | true => simp [h2]
      | false =>
          simp only [h2, Bool.false_eq_true, if_false]
          by_cases h3 : 0 < (getNextAvailableTime s.now s.requestTimestamps).2
          · simp [h3]
          · simp only [h3, if_false]
            unfold dequeueAndCall
            cases hQ : sortTs (s.requestQueue ++
                [({ id := id, timestamp := s.now } : QReq)]) with
            | nil => simp [hQ]
            | cons hd tl => simp [hQ, resolutionEvents_append_started]

/-- After `queueRequest`, the request is either still waiting in the queue
or has already been handed to the drain loop's downstream call. -/
theorem queueRequest_mem (s : RLState) (id : Nat) :
    (⟨id, s.now⟩ : QReq) ∈ (queueRequest s id).requestQueue
    ∨ (queueRequest s id).drain = DrainState.calling ⟨id, s.now⟩ := by
  have hmem : (⟨id, s.now⟩ : QReq) ∈
      sortTs (s.requestQueue ++ [({ id := id, timestamp := s.now } : QReq)]) :=
    (mem_sortTs _ _).mpr (List.mem_append_right _ (by simp))
  unfold queueRequest startProcessQueue
  cases h1 : (s.isProcessingQueue ||
      (sortTs (s.requestQueue ++ [({ id := id, timestamp := s.now } : QReq)])).length == 0) with
  | true => exact Or.inl (by simpa [h1] using hmem)
  | false =>
      simp only [h1, Bool.false_eq_true, if_false]
      unfold drainLoopHead
      cases h2 : ((sortTs (s.requestQueue ++
          [({ id := id, timestamp := s.now } : QReq)])).length == 0) with
      | true => exact Or.inl (by simpa [h2] using hmem)
      | false =>
          simp only [h2, Bool.false_eq_true, if_false]
          by_cases h3 : 0 < (getNextAvailableTime s.now s.requestTimestamps).2
          · exact Or.inl (by simpa [h3] using hmem)
          · simp only [h3, if_false]
            unfold dequeueAndCall
            cases hQ : sortTs (s.requestQueue ++
                [({ id := id, timestamp := s.now } : QReq)]) with
            | nil => simp [hQ] at hmem
            | cons hd tl =>
                rw [hQ] at hmem
                rcases List.mem_cons.mp hmem with heq | hm
                · exact Or.inr (by simp [hQ, ← heq])
                · exact Or.inl (by simp [hQ, hm])

/-- Claim C8: on the fast path a downstream failure classified as
provider-rate-limited is surfaced to the caller only when the extracted
retry-after hint exceeds 300 s; above the cap the caller receives the
typed "try again in N minutes" error outcome (no queueing, no retry, no
silent absorption), and at or below the cap the request is queued/retried
with no settlement event for the caller. -/
theorem c8_rate_limit_surfacing (s : RLState) (item : QReq) (e : ApiError)
    (hrl : isRateLimitError e = true) :
    (300 < extractRetryAfter e →
      handleFastComplete s item (.rejectedWith e) =
        { s with requestTimestamps := s.requestTimestamps.dropLast,
                 events := s.events ++
                   [Ev.resolvedRateLimitMsg item.id s.now (extractRetryAfter e / 60)] })
    ∧ (extractRetryAfter e ≤ 300 →
      resolutionEvents item.id (handleFastComplete s item (.rejectedWith e)).events
          = resolutionEvents item.id s.events
      ∧ ((⟨item.id, s.now⟩ : QReq) ∈ (handleFastComplete s item (.rejectedWith e)).requestQueue
         ∨ (handleFastComplete s item (.rejectedWith e)).drain
             = DrainState.calling ⟨item.id, s.now⟩)) := by
  constructor
  · intro h
    simp [handleFastComplete, hrl, h]
  · intro h
    have hno : ¬ 300 < extractRetryAfter e := not_lt.mpr h
    have hEq : handleFastComplete s item (.rejectedWith e) =
        queueRequest { s with requestTimestamps := s.requestTimestamps.dropLast } item.id := by
      simp [handleFastComplete, hrl, hno]
    rw [hEq]
    exact ⟨queueRequest_resolutions _ _ _, queueRequest_mem _ _⟩

/-- Rate-limit error with an hours-scale hint (retry-after 400 s). -/
def c8ErrBig : ApiError :=
  { msgTooManyRequests := false, msg429 := true, msgRateLimitMarker := false,
    responseStatus := none, detailRetryAfter := none, dataRetryAfter := none,
    headerRetryAfter := some 400, msgRetryAfter := none }

def c8wS : RLState :=
  { now := 3, requestTimestamps := [1], requestQueue := [], isProcessingQueue := false,
    drain := DrainState.notRunning, fastInFlight := [], events := [] }

/-- Witness for C8: hint 400 s is surfaced as the typed error outcome;
hint 10 s is queued/retried with no settlement for the caller. -/
theorem c8_rate_limit_surfacing_witness :
    handleFastComplete c8wS ⟨1, 0⟩ (.rejectedWith c8ErrBig) =
      { c8wS with requestTimestamps := c8wS.requestTimestamps.dropLast,
                  events := c8wS.events ++
                    [Ev.resolvedRateLimitMsg 1 c8wS.now (extractRetryAfter c8ErrBig / 60)] }
    ∧ ((⟨1, c8wS.now⟩ : QReq) ∈ (handleFastComplete c8wS ⟨1, 0⟩ (.rejectedWith rlErrA)).requestQueue
       ∨ (handleFastComplete c8wS ⟨1, 0⟩ (.rejectedWith rlErrA)).drain
           = DrainState.calling ⟨1, c8wS.now⟩) :=
  ⟨(c8_rate_limit_surfacing c8wS ⟨1, 0⟩ c8ErrBig (by decide)).1 (by decide),
   ((c8_rate_limit_surfacing c8wS ⟨1, 0⟩ rlErrA (by decide)).2 (by decide)).2⟩

/-! ### C10: the downstream service never rejects -/

/-- Any value produced by the `try` body carries `success := true`; errors
only arise through the `Except.error` channel. -/
theorem generateBrandingImageBody_ok_shape (env : GenEnv) (r : ImageBrandingResponse)
    (h : generateBrandingImageBody env = .ok r) :
    r.success = true ∧ r.error = none := by
  unfold generateBrandingImageBody at h
  cases hk : env.apiKeyConfigured with
  | false => simp [hk] at h
  | true =>
      simp only [hk, Bool.not_true, Bool.false_eq_true, if_false] at h
      cases hp : env.productData with
      | error m => simp [hp] at h
      | ok found =>
          cases found with
          | false => simp [hp] at h
          | true =>
              simp only [hp] at h
              cases hg : env.generateImage with
              | error m => simp [hg] at h
              | ok img =>
                  simp only [hg] at h
                  cases hd : env.download with
                  | error m => simp [hd] at h
                  | ok f =>
                      simp only [hd, Except.ok.injEq] at h
                      subst h
                      exact ⟨rfl, rfl⟩

/-- Claim C10: `GeminiGenImageService.generateBrandingImage` always
returns a response value — every internal error (missing API key, product
not found, provider failure, poll timeout) is caught by the enclosing
try/catch and returned as `success = false` with an error message string,
and a successful run returns `success = true`.  In the embedding the
function is total into `ImageBrandingResponse`, so the rate-limited
wrapper's catch branches never observe a rejection from this downstream. -/
theorem c10_downstream_total (env : GenEnv) :
    ((generateBrandingImage env).success = true ∧ (generateBrandingImage env).error = none
      ∨ (generateBrandingImage env).success = false
        ∧ ∃ m, (generateBrandingImage env).error = some m)
    ∧ ∀ m, generateBrandingImageBody env = .error m →
        generateBrandingImage env = { success := false, error := some m, imageUrl := none } := by
  constructor
  · cases hb : generateBrandingImageBody env with
    | ok r =>
        have hs := generateBrandingImageBody_ok_shape env r hb
        exact Or.inl (by simp [generateBrandingImage, hb, hs.1, hs.2])
    | error m =>
        exact Or.inr (by simp [generateBrandingImage, hb])
  · intro m hm
    simp [generateBrandingImage, hm]

def c10Env : GenEnv :=
  { apiKeyConfigured := false, productName := "Marie Gold",
    productData := .ok true, brandingContent := .ok (),
    generateImage := .ok "https://img", download := .ok "file.png" }

/-- Witness for C10: with the API key missing the thrown configuration
error is returned as a `success = false` response, not a rejection. -/
theorem c10_downstream_total_witness :
    generateBrandingImage c10Env =
      { success := false, error := some "GeminiGen API key not configured",
        imageUrl := none } :=
  (c10_downstream_total c10Env).2 "GeminiGen API key not configured" rfl

/-! ### C3, C4, C6: the polling state machine -/

/-- A status response that is non-terminal and reached before the final
attempt makes the loop continue. -/
theorem pollBody_next (oracle : PollOracle) (a t : Nat) (st : TaskStatus)
    (ha : oracle a = Except.ok st)
    (h2 : st.status ≠ 2) (h3 : st.status ≠ 3) (h4 : st.status ≠ 4)
    (hlt : a < 4) :
    pollBody oracle a t = .next := by
  have hna : ¬ (pollingSchedule.length ≤ a) := by
    simp only [pollingSchedule, List.length_cons, List.length_nil]
    omega
  simp only [pollBody, ha]
  unfold interpretStatus
  rw [if_neg h2, if_neg (show ¬(st.status = 3 ∨ st.status = 4) by tauto)]
  split <;> simp_all

/-- A non-terminal status on the final attempt throws, with one of the
two "still waiting" messages. -/
theorem pollBody_final_nonterminal (oracle : PollOracle) (t : Nat) (st : TaskStatus)
    (ha : oracle 4 = Except.ok st)
    (h2 : st.status ≠ 2) (h3 : st.status ≠ 3) (h4 : st.status ≠ 4) :
    ∃ emsg, pollBody oracle 4 t = .thrown emsg ∧
      (emsg = stillPendingMsg st.status t ∨ emsg = unknownStatusMsg st.status t) := by
  have hle : pollingSchedule.length ≤ 4 := by simp [pollingSchedule]
  by_cases h01 : st.status = 0 ∨ st.status = 1
  · refine ⟨stillPendingMsg st.status t, ?_, Or.inl rfl⟩
    simp only [pollBody, ha]
    unfold interpretStatus
    rw [if_neg h2, if_neg (show ¬(st.status = 3 ∨ st.status = 4) by tauto),
        if_pos h01, if_pos hle]
  · refine ⟨unknownStatusMsg st.status t, ?_, Or.inr rfl⟩
    simp only [pollBody, ha]
    unfold interpretStatus
    rw [if_neg h2, if_neg (show ¬(st.status = 3 ∨ st.status = 4) by tauto),
        if_neg h01, if_pos hle]

/-- Claim C3: with a provider that is still pending on the first three
status queries and terminally complete on the fourth, the poller issues
exactly 4 queries, awaits exactly the configured per-attempt delays
0 ms, 38000 ms, 25000 ms, 30000 ms (each before the respective query,
i.e. measured from the completion of the previous attempt), and returns
the fourth query's image URL after 93000 ms of waiting. -/
theorem c3_poll_schedule (oracle : PollOracle) (u : String)
    (h1 : ∀ a, 1 ≤ a → a ≤ 3 →
      ∃ st, oracle a = Except.ok st ∧ (st.status = 0 ∨ st.status = 1))
    (h4 : oracle 4 = Except.ok { status := 2, generated_image := [u], error_message := none }) :
    pollTaskCompletion oracle =
      { result := Except.ok u, queries := 4,
        waits := [0, 38000, 25000, 30000], totalTime := 93000 } := by
  obtain ⟨s1, e1, d1⟩ := h1 1 (by norm_num) (by norm_num)
  obtain ⟨s2, e2, d2⟩ := h1 2 (by norm_num) (by norm_num)
  obtain ⟨s3, e3, d3⟩ := h1 3 (by norm_num) (by norm_num)
  have hs1 : s1.status ≠ 2 ∧ s1.status ≠ 3 ∧ s1.status ≠ 4 := by
    rcases d1 with d | d <;> simp [d]
  have hs2 : s2.status ≠ 2 ∧ s2.status ≠ 3 ∧ s2.status ≠ 4 := by
    rcases d2 with d | d <;> simp [d]
  have hs3 : s3.status ≠ 2 ∧ s3.status ≠ 3 ∧ s3.status ≠ 4 := by
    rcases d3 with d | d <;> simp [d]
  have b1 := pollBody_next oracle 1 0 s1 e1 hs1.1 hs1.2.1 hs1.2.2 (by norm_num)
  have b2 := pollBody_next oracle 2 38000 s2 e2 hs2.1 hs2.2.1 hs2.2.2 (by norm_num)
  have b3 := pollBody_next oracle 3 63000 s3 e3 hs3.1 hs3.2.1 hs3.2.2 (by norm_num)
  have b4 : pollBody oracle 4 93000 = .done u := by
    simp [pollBody, h4, interpretStatus]
  simp [pollTaskCompletion, pollingSchedule, pollLoop, b1, b2, b3, b4]

def c3Oracle : PollOracle := fun a =>
  if a ≤ 3 then Except.ok { status := 0, generated_image := [], error_message := none }
  else Except.ok { status := 2, generated_image := ["https://img"], error_message := none }

/-- Witness for C3 against a 3-pending-then-done provider. -/
theorem c3_poll_schedule_witness :
    pollTaskCompletion c3Oracle =
      { result := Except.ok "https://img", queries := 4,
        waits := [0, 38000, 25000, 30000], totalTime := 93000 } :=
  c3_poll_schedule c3Oracle "https://img"
    (fun a _ ha3 =>
      ⟨{ status := 0, generated_image := [], error_message := none },
        by simp [c3Oracle, ha3], Or.inl rfl⟩)
    (by simp [c3Oracle])

/-- Claim C4: with a provider that never reaches a terminal status
(pending, processing or unknown on every query), the poller terminates
after exactly the 4 scheduled attempts — it never issues a fifth query —
with a timeout error whose message carries the attempt count and the
total elapsed time ("Polling failed after 4 attempts (93s total): ..."). -/
theorem c4_poll_timeout (oracle : PollOracle)
    (h : ∀ a, 1 ≤ a → a ≤ 4 →
      ∃ st, oracle a = Except.ok st ∧ st.status ≠ 2 ∧ st.status ≠ 3 ∧ st.status ≠ 4) :
    (pollTaskCompletion oracle).queries = 4
    ∧ ∃ emsg, (pollTaskCompletion oracle).result = Except.error (pollFailMsg 93000 emsg) := by
  obtain ⟨s1, e1, p1⟩ := h 1 (by norm_num) (by norm_num)
  obtain ⟨s2, e2, p2⟩ := h 2 (by norm_num) (by norm_num)
  obtain ⟨s3, e3, p3⟩ := h 3 (by norm_num) (by norm_num)
  obtain ⟨s4, e4, p4⟩ := h 4 (by norm_num) (by norm_num)
  have b1 := pollBody_next oracle 1 0 s1 e1 p1.1 p1.2.1 p1.2.2 (by norm_num)
  have b2 := pollBody_next oracle 2 38000 s2 e2 p2.1 p2.2.1 p2.2.2 (by norm_num)
  have b3 := pollBody_next oracle 3 63000 s3 e3 p3.1 p3.2.1 p3.2.2 (by norm_num)
  obtain ⟨emsg, b4, _⟩ :=
    pollBody_final_nonterminal oracle 93000 s4 e4 p4.1 p4.2.1 p4.2.2
  refine ⟨?_, emsg, ?_⟩ <;>
    simp [pollTaskCompletion, pollingSchedule, pollLoop, b1, b2, b3, b4]

def c4Oracle : PollOracle := fun _ =>
  Except.ok { status := 0, generated_image := [], error_message := none }

/-- Witness for C4 against an always-pending provider. -/
theorem c4_poll_timeout_witness :
    (pollTaskCompletion c4Oracle).queries = 4
    ∧ ∃ emsg, (pollTaskCompletion c4Oracle).result = Except.error (pollFailMsg 93000 emsg) :=
  c4_poll_timeout c4Oracle
    (fun _ _ _ =>
      ⟨{ status := 0, generated_image := [], error_message := none },
        rfl, by decide, by decide, by decide⟩)

/-- Claim C6: a status query that itself throws consumes exactly one
attempt.  If it happens before the final scheduled attempt, polling
continues with the next attempt (here: queries failing up to attempt k-1
and a terminal success at attempt k ≤ 4 still yield the success after
exactly k queries); if the final attempt's query throws, the poller
terminates with the wrapped terminal failure after exactly 4 queries. -/
theorem c6_query_throw_tolerance (oracle : PollOracle) :
    (∀ (u : String) (k : Nat) (emsg : String), 1 ≤ k → k ≤ 4 →
      (∀ j, 1 ≤ j → j < k → oracle j = Except.error emsg) →
      oracle k = Except.ok { status := 2, generated_image := [u], error_message := none } →
      (pollTaskCompletion oracle).result = Except.ok u
        ∧ (pollTaskCompletion oracle).queries = k)
    ∧ (∀ emsg, (∀ j, 1 ≤ j → j ≤ 4 → oracle j = Except.error emsg) →
      (pollTaskCompletion oracle).result = Except.error (pollFailMsg 93000 emsg)
        ∧ (pollTaskCompletion oracle).queries = 4) := by
  constructor
  · intro u k emsg hk1 hk4 hthrow hdone
    interval_cases k
    · constructor <;>
        simp [pollTaskCompletion, pollingSchedule, pollLoop, pollBody, hdone,
              interpretStatus]
    · have o1 := hthrow 1 (by norm_num) (by norm_num)
      constructor <;>
        simp [pollTaskCompletion, pollingSchedule, pollLoop, pollBody, o1, hdone,
              interpretStatus]
    · have o1 := hthrow 1 (by norm_num) (by norm_num)
      have o2 := hthrow 2 (by norm_num) (by norm_num)
      constructor <;>
        simp [pollTaskCompletion, pollingSchedule, pollLoop, pollBody, o1, o2, hdone,
              interpretStatus]
    · have o1 := hthrow 1 (by norm_num) (by norm_num)
      have o2 := hthrow 2 (by norm_num) (by norm_num)
      have o3 := hthrow 3 (by norm_num) (by norm_num)
      constructor <;>
        simp [pollTaskCompletion, pollingSchedule, pollLoop, pollBody, o1, o2, o3, hdone,
              interpretStatus]
  · intro emsg hall
    have o1 := hall 1 (by norm_num) (by norm_num)
    have o2 := hall 2 (by norm_num) (by norm_num)
    have o3 := hall 3 (by norm_num) (by norm_num)
    have o4 := hall 4 (by norm_num) (by norm_num)
    constructor <;>
      simp [pollTaskCompletion, pollingSchedule, pollLoop, pollBody, o1, o2, o3, o4]

def c6OracleA : PollOracle := fun a =>
  if a = 1 then Except.error "network error"
  else Except.ok { status := 2, generated_image := ["u1"], error_message := none }

def c6OracleB : PollOracle := fun _ => Except.error "network error"

/-- Witness for C6: one transient query failure then success on attempt 2;
and a provider whose query always throws. -/
theorem c6_query_throw_tolerance_witness :
    ((pollTaskCompletion c6OracleA).result = Except.ok "u1"
      ∧ (pollTaskCompletion c6OracleA).queries = 2)
    ∧ ((pollTaskCompletion c6OracleB).result
          = Except.error (pollFailMsg 93000 "network error")
      ∧ (pollTaskCompletion c6OracleB).queries = 4) :=
  ⟨(c6_query_throw_tolerance c6OracleA).1 "u1" 2 "network error" (by norm_num) (by norm_num)
      (fun j hj1 hj2 => by
        have hj : j = 1 := by omega
        subst hj
        rfl)
      rfl,
   (c6_query_throw_tolerance c6OracleB).2 "network error" (fun j _ _ => rfl)⟩
